import Mathlib

/-!
Shallow embedding of the fixtool agent (src/agent/fixtool-agent.py): the
length-prefixed control-channel frame codec, the entity state machines
(Client, Server, ServerSession, ControlSession) and the dispatcher
(FixToolAgent) request handlers, together with theorems settling the
specification claims about them.

Bytes are modelled as natural numbers, sockets as numeric handles, the
asyncio reactor as the list of socket handles with a registered readiness
callback, and Python dictionaries as association lists.  Python object
identity for ServerSession objects (which are shared between a Server and
the dispatcher table) is modelled with an explicit heap of sessions keyed
by numeric ids.
-/

namespace Fixtool

/-- A byte (0..255 in the program; the embedding does not need the bound). -/
abbrev Byte := Nat

/-- A byte string. -/
abbrev Bytes := List Nat

/-- struct.unpack of format >L applied to the first four bytes of a buffer:
the 32-bit unsigned big-endian value. -/
def beUnpack4 (bs : Bytes) : Nat :=
  (bs.take 4).foldl (fun a b => a * 256 + b) 0

/-- struct.pack of format >L: the four-byte unsigned big-endian encoding of
a number below 2^32. -/
def bePack4 (n : Nat) : Bytes :=
  [n / 16777216 % 256, n / 65536 % 256, n / 256 % 256, n % 256]

theorem length_bePack4 (n : Nat) : (bePack4 n).length = 4 := rfl

theorem beUnpack4_bePack4 (n : Nat) (h : n < 4294967296) :
    beUnpack4 (bePack4 n) = n := by
  simp only [beUnpack4, bePack4, List.take, List.foldl]
  omega

theorem beUnpack4_take (bs : Bytes) (k : Nat) (hk : 4 ≤ k) :
    beUnpack4 (bs.take k) = beUnpack4 bs := by
  simp only [beUnpack4, List.take_take, Nat.min_eq_left hk]

theorem beUnpack4_append4 (l rest : Bytes) (h : l.length = 4) :
    beUnpack4 (l ++ rest) = beUnpack4 l := by
  simp only [beUnpack4]
  rw [List.take_append_eq_append_take, h]
  simp [List.take_of_length_le (le_of_eq h)]

/-- ControlSession (src lines 282-326): one control-channel connection,
holding the partial-frame accumulation buffer.  The socket handle is not
needed by the framing claims and is omitted from the state. -/
structure ControlSession where
  buffer : Bytes
deriving DecidableEq, Repr

/-- ControlSession.append_bytes (src lines 292-311), translated literally:
append the chunk to the accumulation buffer; if the accumulated buffer is
at most 4 bytes long, return no payload; otherwise read the 4-byte
big-endian length, and if the length of the NEW CHUNK (the source compares
len of the chunk argument, not of the accumulated buffer) is below 4 plus
the payload length, return no payload; otherwise consume the header and
the payload from the accumulation buffer and return the payload. -/
def ControlSession.append_bytes (s : ControlSession) (buffer : Bytes) :
    ControlSession × Option Bytes :=
  let acc := s.buffer ++ buffer
  if acc.length ≤ 4 then
    (⟨acc⟩, none)
  else
    let payload_length := beUnpack4 acc
    if buffer.length < 4 + payload_length then
      (⟨acc⟩, none)
    else
      let rest := acc.drop 4
      (⟨rest.drop payload_length⟩, some (rest.take payload_length))

/-- ControlSession.send (src lines 313-321): frame a payload as the 4-byte
big-endian length header followed by the payload bytes, written to the
socket in one sendall call; modelled as the byte string written. -/
def ControlSession.send (payload : Bytes) : Bytes :=
  bePack4 payload.length ++ payload

theorem length_send (p : Bytes) :
    (ControlSession.send p).length = 4 + p.length := by
  simp [ControlSession.send, bePack4]
  omega

/-- The frame-extraction loop of FixToolAgent.readable (src lines 386-391):
after a non-empty read the chunk is appended once, and each payload yielded
is decoded as JSON and passed to handle_request; the loop body then sets
payload to None (the line marked FIXME deal with multiple messages), so at
most one frame is handled per readable event.  Returns the control session
and the list of payloads handled, in order. -/
def FixToolAgent.readable_frame_loop (s : ControlSession) (buf : Bytes) :
    ControlSession × List Bytes :=
  match ControlSession.append_bytes s buf with
  | (s1, none) => (s1, [])
  | (s1, some p) => (s1, [p])

/-- The first call on a split frame never yields a payload and keeps all
bytes buffered: either the accumulated buffer is still at most 4 bytes, or
the chunk-length comparison fails. -/
theorem append_bytes_first_chunk (p : Bytes) (k : Nat)
    (hk2 : k < 4 + p.length) (hp : p.length < 4294967296) :
    ControlSession.append_bytes ⟨[]⟩ ((ControlSession.send p).take k) =
      (⟨(ControlSession.send p).take k⟩, none) := by
  have hw : (ControlSession.send p).length = 4 + p.length := length_send p
  have hklen : ((ControlSession.send p).take k).length = k := by
    rw [List.length_take, hw]
    omega
  by_cases h4 : k ≤ 4
  · simp only [ControlSession.append_bytes, List.nil_append]
    rw [if_pos (by rw [hklen]; exact h4)]
  · have h4lt : 4 ≤ k := by omega
    have hpl : beUnpack4 ((ControlSession.send p).take k) = p.length := by
      rw [beUnpack4_take _ _ h4lt]
      unfold ControlSession.send
      rw [beUnpack4_append4 _ _ (length_bePack4 _)]
      exact beUnpack4_bePack4 _ hp
    simp only [ControlSession.append_bytes, List.nil_append]
    rw [if_neg (by rw [hklen]; omega)]
    rw [hpl, if_pos (by rw [hklen]; omega)]

/-- Claim C1: splitting one encoded frame at any boundary across two
append_bytes calls on one ControlSession yields NO payload at all (not the
one payload the claim requires): the source compares the length of the new
chunk, not of the accumulated buffer, against 4 plus the payload length,
so the second call also returns None even though the complete frame is
buffered.  Both calls retain all bytes in the accumulation buffer. -/
theorem C1_split_frame_two_calls_decode_nothing (p : Bytes) (k : Nat)
    (hk1 : 1 ≤ k) (hk2 : k < 4 + p.length) (hp : p.length < 4294967296) :
    (ControlSession.append_bytes ⟨[]⟩ ((ControlSession.send p).take k)).2 = none ∧
    (ControlSession.append_bytes ⟨[]⟩ ((ControlSession.send p).take k)).1.buffer
        = (ControlSession.send p).take k ∧
    (ControlSession.append_bytes
        (ControlSession.append_bytes ⟨[]⟩ ((ControlSession.send p).take k)).1
        ((ControlSession.send p).drop k)).2 = none ∧
    (ControlSession.append_bytes
        (ControlSession.append_bytes ⟨[]⟩ ((ControlSession.send p).take k)).1
        ((ControlSession.send p).drop k)).1.buffer = ControlSession.send p := by
  have hfirst := append_bytes_first_chunk p k hk2 hp
  rw [hfirst]
  have hw : (ControlSession.send p).length = 4 + p.length := length_send p
  have hacc : (ControlSession.send p).take k ++ (ControlSession.send p).drop k
      = ControlSession.send p := List.take_append_drop k _
  have hdroplen : ((ControlSession.send p).drop k).length = 4 + p.length - k := by
    rw [List.length_drop, hw]
  refine ⟨rfl, rfl, ?_, ?_⟩
  · by_cases h0 : p.length = 0
    · simp only [ControlSession.append_bytes, hacc]
      rw [if_pos (by rw [hw]; omega)]
    · have hpl : beUnpack4 (ControlSession.send p) = p.length := by
        unfold ControlSession.send
        rw [beUnpack4_append4 _ _ (length_bePack4 _)]
        exact beUnpack4_bePack4 _ hp
      simp only [ControlSession.append_bytes, hacc]
      rw [if_neg (by rw [hw]; omega)]
      rw [hpl, if_pos (by rw [hdroplen]; omega)]
  · by_cases h0 : p.length = 0
    · simp only [ControlSession.append_bytes, hacc]
      rw [if_pos (by rw [hw]; omega)]
    · have hpl : beUnpack4 (ControlSession.send p) = p.length := by
        unfold ControlSession.send
        rw [beUnpack4_append4 _ _ (length_bePack4 _)]
        exact beUnpack4_bePack4 _ hp
      simp only [ControlSession.append_bytes, hacc]
      rw [if_neg (by rw [hw]; omega)]
      rw [hpl, if_pos (by rw [hdroplen]; omega)]

/-- Witness for C1: the 5-byte frame carrying the single payload byte 97,
split 3 bytes then 2 bytes, decodes to nothing in either call. -/
theorem C1_split_frame_witness :
    (1 ≤ 3 ∧ 3 < 4 + ([97] : Bytes).length ∧ ([97] : Bytes).length < 4294967296) ∧
    ((ControlSession.append_bytes ⟨[]⟩ ((ControlSession.send [97]).take 3)).2 = none ∧
     (ControlSession.append_bytes ⟨[]⟩ ((ControlSession.send [97]).take 3)).1.buffer
         = (ControlSession.send [97]).take 3 ∧
     (ControlSession.append_bytes
         (ControlSession.append_bytes ⟨[]⟩ ((ControlSession.send [97]).take 3)).1
         ((ControlSession.send [97]).drop 3)).2 = none ∧
     (ControlSession.append_bytes
         (ControlSession.append_bytes ⟨[]⟩ ((ControlSession.send [97]).take 3)).1
         ((ControlSession.send [97]).drop 3)).1.buffer = ControlSession.send [97]) :=
  ⟨by decide,
   C1_split_frame_two_calls_decode_nothing [97] 3 (by decide) (by decide) (by decide)⟩

/-- Claim C2: when two complete encoded frames arrive concatenated in one
read, the control read path of the dispatcher decodes and handles exactly
ONE payload (the first), not the two the claim requires; the bytes of the
second frame stay in the accumulation buffer. -/
theorem C2_two_frames_one_read_handles_only_first (p1 p2 : Bytes)
    (h1 : p1.length < 4294967296) :
    FixToolAgent.readable_frame_loop ⟨[]⟩
        (ControlSession.send p1 ++ ControlSession.send p2) =
      (⟨ControlSession.send p2⟩, [p1]) := by
  have hl1 : (ControlSession.send p1).length = 4 + p1.length := length_send p1
  have hl2 : (ControlSession.send p2).length = 4 + p2.length := length_send p2
  have hassoc : ControlSession.send p1 ++ ControlSession.send p2
      = bePack4 p1.length ++ (p1 ++ ControlSession.send p2) := by
    simp [ControlSession.send, List.append_assoc]
  have hpl : beUnpack4 (ControlSession.send p1 ++ ControlSession.send p2)
      = p1.length := by
    rw [hassoc, beUnpack4_append4 _ _ (length_bePack4 _),
      beUnpack4_bePack4 _ h1]
  have hlen : (ControlSession.send p1 ++ ControlSession.send p2).length
      = 4 + p1.length + (4 + p2.length) := by
    rw [List.length_append, hl1, hl2]
  unfold FixToolAgent.readable_frame_loop
  simp only [ControlSession.append_bytes, List.nil_append]
  rw [if_neg (by rw [hlen]; omega)]
  rw [hpl, if_neg (by rw [hlen]; omega)]
  have hdrop : (ControlSession.send p1 ++ ControlSession.send p2).drop 4
      = p1 ++ ControlSession.send p2 := by
    rw [hassoc, List.drop_left' (length_bePack4 _)]
  rw [hdrop]
  rw [List.take_left' rfl, List.drop_left' rfl]

/-- Witness for C2: the frames for payloads [97] and [98] concatenated in
one read are handled as the single payload [97]; the second frame is left
in the buffer. -/
theorem C2_two_frames_witness :
    (([97] : Bytes).length < 4294967296) ∧
    FixToolAgent.readable_frame_loop ⟨[]⟩
        (ControlSession.send [97] ++ ControlSession.send [98]) =
      (⟨ControlSession.send [98]⟩, [[97]]) :=
  ⟨by decide, C2_two_frames_one_read_handles_only_first [97] [98] (by decide)⟩

/-- Claim C3: the encoded empty payload is the bare 4-byte header; feeding
it to append_bytes yields no payload (the source returns early whenever the
accumulated buffer is at most 4 bytes long), so the round trip fails for
the zero-length payload, while the bytes stay buffered. -/
theorem C3_empty_payload_roundtrip_fails :
    ControlSession.append_bytes ⟨[]⟩ (ControlSession.send []) =
      (⟨[0, 0, 0, 0]⟩, none) := by decide

/-- The round trip does hold for any payload of nonzero length delivered in
a single call: framing with send and feeding the bytes to append_bytes on a
fresh session returns exactly the payload and empties the buffer. -/
theorem append_bytes_send_roundtrip_pos (p : Bytes) (h0 : 0 < p.length)
    (hp : p.length < 4294967296) :
    ControlSession.append_bytes ⟨[]⟩ (ControlSession.send p) = (⟨[]⟩, some p) := by
  have hw : (ControlSession.send p).length = 4 + p.length := length_send p
  have hpl : beUnpack4 (ControlSession.send p) = p.length := by
    unfold ControlSession.send
    rw [beUnpack4_append4 _ _ (length_bePack4 _)]
    exact beUnpack4_bePack4 _ hp
  simp only [ControlSession.append_bytes, List.nil_append]
  rw [if_neg (by rw [hw]; omega)]
  rw [hpl, if_neg (by rw [hw]; omega)]
  unfold ControlSession.send
  rw [List.drop_left' (length_bePack4 _)]
  rw [List.take_length, List.drop_length]

/-! Python dictionaries as association lists.  alSet is item assignment
(replace the binding if the key is present, otherwise append it), alGet is
dict.get (None when absent), alDel is del, alMem is the in operator. -/

section AList

variable {α β : Type} [DecidableEq α]

def alGet : List (α × β) → α → Option β
  | [], _ => none
  | (k, v) :: t, a => if k = a then some v else alGet t a

def alSet : List (α × β) → α → β → List (α × β)
  | [], a, b => [(a, b)]
  | (k, v) :: t, a, b => if k = a then (a, b) :: t else (k, v) :: alSet t a b

def alDel : List (α × β) → α → List (α × β)
  | [], _ => []
  | (k, v) :: t, a => if k = a then t else (k, v) :: alDel t a

def alMem (l : List (α × β)) (a : α) : Bool :=
  (alGet l a).isSome

theorem alGet_alSet_self (l : List (α × β)) (k : α) (v : β) :
    alGet (alSet l k v) k = some v := by
  induction l with
  | nil => simp [alSet, alGet]
  | cons hd tl ih =>
    obtain ⟨kk, vv⟩ := hd
    by_cases h : kk = k <;> simp [alSet, alGet, h, ih]

theorem alGet_eq_none_iff (l : List (α × β)) (a : α) :
    alGet l a = none ↔ a ∉ l.map Prod.fst := by
  induction l with
  | nil => simp [alGet]
  | cons hd tl ih =>
    obtain ⟨kk, vv⟩ := hd
    by_cases h : kk = a
    · subst h
      simp [alGet]
    · have h2 : a ≠ kk := fun hh => h hh.symm
      simp [alGet, h, h2, ih]

theorem alSet_of_get_none (l : List (α × β)) (a : α) (b : β)
    (h : alGet l a = none) : alSet l a b = l ++ [(a, b)] := by
  induction l with
  | nil => simp [alSet]
  | cons hd tl ih =>
    obtain ⟨kk, vv⟩ := hd
    by_cases hk : kk = a
    · simp [alGet, hk] at h
    · simp [alGet, hk] at h
      simp [alSet, hk, ih h]

theorem alGet_alDel_self (l : List (α × β)) (a : α)
    (h : (l.map Prod.fst).Nodup) : alGet (alDel l a) a = none := by
  induction l with
  | nil => simp [alDel, alGet]
  | cons hd tl ih =>
    obtain ⟨kk, vv⟩ := hd
    simp only [List.map_cons, List.nodup_cons] at h
    by_cases hk : kk = a
    · subst hk
      simp only [alDel, if_pos rfl]
      exact (alGet_eq_none_iff tl kk).mpr h.1
    · simp [alDel, alGet, hk, ih h.2]

theorem mem_keys_alSet (l : List (α × β)) (a : α) (b : β) (x : α)
    (h : x ∈ (alSet l a b).map Prod.fst) : x ∈ l.map Prod.fst ∨ x = a := by
  induction l with
  | nil => simpa [alSet] using h
  | cons hd tl ih =>
    obtain ⟨kk, vv⟩ := hd
    by_cases hk : kk = a
    · simp only [alSet, if_pos hk, List.map_cons, List.mem_cons] at h
      rcases h with h | h
      · exact Or.inr h
      · exact Or.inl (List.mem_cons_of_mem _ h)
    · simp only [alSet, if_neg hk, List.map_cons, List.mem_cons] at h
      rcases h with h | h
      · exact Or.inl (by simp [h])
      · rcases ih h with h2 | h2
        · exact Or.inl (List.mem_cons_of_mem _ h2)
        · exact Or.inr h2

theorem nodup_keys_alSet (l : List (α × β)) (a : α) (b : β)
    (h : (l.map Prod.fst).Nodup) : ((alSet l a b).map Prod.fst).Nodup := by
  induction l with
  | nil => simp [alSet]
  | cons hd tl ih =>
    obtain ⟨kk, vv⟩ := hd
    simp only [List.map_cons, List.nodup_cons] at h
    by_cases hk : kk = a
    · subst hk
      rw [show alSet ((kk, vv) :: tl) kk b = (kk, b) :: tl from by simp [alSet]]
      simp only [List.map_cons, List.nodup_cons]
      exact h
    · simp only [alSet, if_neg hk, List.map_cons, List.nodup_cons]
      refine ⟨?_, ih h.2⟩
      intro hmem
      rcases mem_keys_alSet tl a b kk hmem with h2 | h2
      · exact h.1 h2
      · exact hk h2

end AList

/-! The asyncio event loop seen through add_reader and remove_reader:
modelled as the list of socket handles that currently have a readiness
callback registered. -/

/-- A socket handle. -/
abbrev SockId := Nat

/-- Heap id of a ServerSession object (Python object identity). -/
abbrev SessId := Nat

/-- The reactor registration set: sockets with a readiness callback. -/
abbrev Reactor := List SockId

/-- asyncio add_reader. -/
def Reactor.add (r : Reactor) (s : SockId) : Reactor := s :: r

/-- asyncio remove_reader. -/
def Reactor.remove (r : Reactor) (s : SockId) : Reactor :=
  r.filter (fun x => x != s)

/-- Client (src lines 77-134): one simulated protocol-initiating endpoint.
The simplefix parser is an external collaborator; only the bytes fed to it
are recorded, and the messages it yields are passed into readable by the
caller (see Client.readable). -/
structure Client where
  name : Option String
  comp_id : Bytes := []
  auto_heartbeat : Bool := true
  auto_sequence : Bool := true
  raw : Bool := false
  next_send_sequence : Nat := 0
  last_seen_sequence : Nat := 0
  host : Option String := none
  port : Option Int := none
  is_connected : Bool := false
  socket : Option SockId
  recv_queue : List Bytes := []
deriving DecidableEq, Repr

/-- Client constructor (src lines 78-97): records the name, sets every flag
to its default, marks the client not connected, and EAGERLY creates the
owned TCP socket (the socket exists from construction on, even though the
client is not connected).  sid is the handle of the newly created socket. -/
def Client.init (name : Option String) (sid : SockId) : Client :=
  { name := name, socket := some sid }

/-- The port values accepted by the OS socket layer when connecting.
Modelled from the spec: port-valued fields range over the integers in
[0, 65535] (section 6); CPython raises OverflowError or TypeError from
socket.connect for a missing or out-of-range port, before any connection
is made. -/
def osPortOk : Option Int → Bool
  | none => false
  | some v => decide (0 ≤ v ∧ v ≤ 65535)

/-- Client.connect (src lines 105-112): stores host and port on the client,
then calls the blocking socket.connect; on success it marks the client
connected and registers the socket with the reactor.  The TCP handshake of
a valid connect is abstracted as succeeding; a missing or out-of-range
port makes socket.connect raise AFTER host and port were already recorded,
so the returned flag is true exactly when an exception propagates out of
connect, with no reactor registration and the client left not connected. -/
def Client.connect (c : Client) (r : Reactor) (host : Option String)
    (port : Option Int) : Client × Reactor × Bool :=
  let c1 := { c with host := host, port := port }
  if osPortOk port then
    match c.socket with
    | some s => ({ c1 with is_connected := true }, Reactor.add r s, false)
    | none => (c1, r, true)
  else
    (c1, r, true)

/-- Client.disconnect (src lines 117-121): removes the reactor registration
for the owned socket, closes it, and clears the connected flag.  The socket
attribute itself is kept (the source never sets it to None for a Client). -/
def Client.disconnect (c : Client) (r : Reactor) : Client × Reactor :=
  ({ c with is_connected := false },
   match c.socket with
   | some s => Reactor.remove r s
   | none => r)

/-- Client.destroy (src lines 99-103): disconnects first when connected. -/
def Client.destroy (c : Client) (r : Reactor) : Client × Reactor :=
  if c.is_connected then Client.disconnect c r else (c, r)

/-- Client.readable (src lines 123-134): on a zero-length read (peer close)
the client disconnects itself (removing its reactor registration); on a
non-empty read the bytes go to the external simplefix parser and every
message the parser yields is appended to the receive queue.  The parser is
outside the core (spec section 1); decoded stands for the messages it
yields for this chunk and is supplied by the environment. -/
def Client.readable (c : Client) (r : Reactor) (buf : Bytes)
    (decoded : List Bytes) : Client × Reactor :=
  if buf.length = 0 then
    Client.disconnect c r
  else
    ({ c with recv_queue := c.recv_queue ++ decoded }, r)

/-- ServerSession (src lines 213-279): one accepted connection belonging to
a Server.  The owning-server back-reference is stored by the source but
never read inside src, so it is omitted here. -/
structure ServerSession where
  socket : Option SockId
  name : Option String := none
  is_connected : Bool := true
  queue : List Bytes := []
deriving DecidableEq, Repr

/-- ServerSession constructor (src lines 214-227): adopts the freshly
accepted socket, starts connected and unnamed, and registers the socket
with the reactor. -/
def ServerSession.init (sock : SockId) (r : Reactor) : ServerSession × Reactor :=
  ({ socket := some sock }, Reactor.add r sock)

/-- ServerSession.readable (src lines 239-251): on a zero-length read the
session ONLY clears its connected flag and returns; unlike Client.readable
it neither closes the socket nor removes the reactor registration.  On a
non-empty read the bytes go to the external parser and its messages are
appended to the queue (decoded as in Client.readable). -/
def ServerSession.readable (s : ServerSession) (r : Reactor) (buf : Bytes)
    (decoded : List Bytes) : ServerSession × Reactor :=
  if buf.length = 0 then
    ({ s with is_connected := false }, r)
  else
    ({ s with queue := s.queue ++ decoded }, r)

/-- ServerSession.disconnect (src lines 257-263): removes the reactor
registration, closes the socket, sets the socket attribute to None and
clears the connected flag.  When the socket attribute is already None the
source raises from remove_reader; that case returns none here. -/
def ServerSession.disconnect (s : ServerSession) (r : Reactor) :
    Option (ServerSession × Reactor) :=
  match s.socket with
  | none => none
  | some k => some ({ s with socket := none, is_connected := false },
                    Reactor.remove r k)

/-- ServerSession.is_connected (src lines 253-255). -/
def ServerSession.isConnectedQ (s : ServerSession) : Bool := s.is_connected

/-- ServerSession.destroy (src lines 229-233): disconnect when connected,
then drop the queued messages; none when disconnect raises. -/
def ServerSession.destroy (s : ServerSession) (r : Reactor) :
    Option (ServerSession × Reactor) :=
  if s.is_connected then
    match ServerSession.disconnect s r with
    | none => none
    | some (s1, r1) => some ({ s1 with queue := [] }, r1)
  else
    some ({ s with queue := [] }, r)

/-- The heap of ServerSession objects, keyed by object identity: a Server
and the dispatcher table can reference the same session. -/
abbrev Heap := List (SessId × ServerSession)

/-- Server (src lines 138-210): one simulated accepting endpoint, with its
FIFO of pending (anonymous) sessions and its table of accepted sessions,
both holding references (heap ids) to shared ServerSession objects. -/
structure Server where
  auto_heartbeat : Bool := true
  auto_sequence : Bool := true
  raw : Bool := false
  next_send_sequence : Nat := 0
  last_seen_sequence : Nat := 0
  pending_sessions : List SessId := []
  accepted_sessions : List (Option String × SessId) := []
  socket : Option SockId := none
deriving DecidableEq, Repr

/-- The destroy loops of Server.destroy (src lines 156-162): destroy every
session in the list, threading the heap and the reactor.  The Boolean is
true when a session destroy raised, in which case the loop stops there
with the earlier updates kept (as the propagating Python exception would).
A listed id missing from the heap cannot arise in the embedding (every id
stored in a table is allocated in the heap) and is skipped. -/
def destroyAll : List SessId → Heap → Reactor → (Heap × Reactor) × Bool
  | [], h, r => ((h, r), false)
  | i :: t, h, r =>
    match alGet h i with
    | none => destroyAll t h r
    | some s =>
      match ServerSession.destroy s r with
      | none => ((h, r), true)
      | some (s1, r1) => destroyAll t (alSet h i s1) r1

/-- Server.destroy (src lines 152-163).  NOTE: when the server is still
listening the source calls self.unlisten() without the required port
argument, so a TypeError is raised before any teardown; the Boolean result
is true when an exception propagates.  Otherwise every pending session is
destroyed and the pending list cleared, then every accepted session is
destroyed and the accepted table cleared. -/
def Server.destroy (srv : Server) (h : Heap) (r : Reactor) :
    (Server × Heap × Reactor) × Bool :=
  if srv.socket.isSome then
    ((srv, h, r), true)
  else
    match destroyAll srv.pending_sessions h r with
    | ((h1, r1), true) => ((srv, h1, r1), true)
    | ((h1, r1), false) =>
      let srv1 := { srv with pending_sessions := ([] : List SessId) }
      match destroyAll (srv1.accepted_sessions.map Prod.snd) h1 r1 with
      | ((h2, r2), true) => ((srv1, h2, r2), true)
      | ((h2, r2), false) =>
        (({ srv1 with accepted_sessions := ([] : List (Option String × SessId)) },
          h2, r2), false)

/-- Server.listen (src lines 169-180): creates a new listening socket
(handle sid), binds it to the port and registers the acceptance callback.
Binding is abstracted as succeeding. -/
def Server.listen (srv : Server) (r : Reactor) (sid : SockId) :
    Server × Reactor :=
  ({ srv with socket := some sid }, Reactor.add r sid)

/-- Server.unlisten (src lines 182-186): removes the reactor registration
of the listening socket, closes it and clears the attribute; none when the
server is not listening (the source raises on the None socket). -/
def Server.unlisten (srv : Server) (r : Reactor) : Option (Server × Reactor) :=
  match srv.socket with
  | none => none
  | some s => some ({ srv with socket := none }, Reactor.remove r s)

/-- Server.pending_client_count (src lines 195-197). -/
def Server.pending_client_count (srv : Server) : Nat :=
  srv.pending_sessions.length

/-- Server.accept_client_session (src lines 199-210): with no pending
session, return None and change nothing; otherwise pop the oldest pending
session, give it the requested name, insert it in the accepted table and
return it. -/
def Server.accept_client_session (srv : Server) (h : Heap)
    (name : Option String) : Server × Heap × Option SessId :=
  if srv.pending_client_count < 1 then
    (srv, h, none)
  else
    match srv.pending_sessions with
    | [] => (srv, h, none)
    | i :: t =>
      let h1 := match alGet h i with
        | some s => alSet h i { s with name := name }
        | none => h
      ({ srv with pending_sessions := t,
                  accepted_sessions := alSet srv.accepted_sessions name i },
       h1, some i)

/-! The dispatcher (FixToolAgent, src lines 329-656). -/

/-- A decoded control request.  Each field models message.get of the
corresponding key: none when the field is absent from the JSON object.
Port values are modelled as integers (a JSON number). -/
structure Request where
  name : Option String := none
  session_name : Option String := none
  host : Option String := none
  port : Option Int := none
deriving DecidableEq, Repr

/-- Modelled from the spec: the response classes (ClientCreatedMessage and
friends) live in fixtool.message, outside src/.  Per the spec (section 6)
and every handler call site, a response carries the correlating name, a
success flag and a reason string, plus the verb-specific payload: the
session_name for server_accepted, the connected flag for the is_connected
responses, and the count for the pending-accept response.  Constructor
arguments at the call sites map positionally onto these fields. -/
structure Response where
  name : Option String
  success : Bool
  reason : String
  session_name : Option String := none
  connected : Bool := false
  count : Nat := 0
deriving DecidableEq, Repr

/-- Python string interpolation of a possibly absent name with percent-s. -/
def fmtName : Option String → String
  | some s => s
  | none => "None"

/-- The port test of handle_server_listen and handle_server_unlisten
(src lines 560 and 582): port is None or port < 0 or port > 65535. -/
def portBad : Option Int → Bool
  | none => true
  | some v => decide (v < 0 ∨ 65535 < v)

/-- The whole mutable state of the agent process: the four dispatcher
tables (control sessions are not needed by the dispatcher claims and are
kept at the ControlSession level), the heap of ServerSession objects, the
reactor registration set and a fresh-handle counter for sockets and
session ids. -/
structure AgentState where
  clients : List (Option String × Client) := []
  servers : List (Option String × Server) := []
  server_sessions : List (Option String × Option SessId) := []
  sessions : Heap := []
  reactor : Reactor := []
  next_id : Nat := 0
deriving DecidableEq, Repr

/-- Every handler sends at most one framed response on the originating
control session; none models an exception propagating out of the handler
into the reactor callback (asyncio logs it and keeps running), in which
case no response at all is sent while the mutations already performed
survive. -/
abbrev HandlerResult := AgentState × Option Response

/-- handle_client_create (src lines 447-461): a duplicate name is refused
with reason Client name already exists and no mutation; otherwise a new
Client object (with its eagerly created socket) is entered in the table. -/
def handle_client_create (st : AgentState) (req : Request) : HandlerResult :=
  let name := req.name
  if alMem st.clients name then
    (st, some { name := name, success := false,
                reason := "Client " ++ fmtName name ++ " already exists" })
  else
    ({ st with clients := alSet st.clients name (Client.init name st.next_id),
               next_id := st.next_id + 1 },
     some { name := name, success := true, reason := "" })

/-- handle_client_destroy (src lines 463-477): an unknown name hits the
failure branch, but building its reason applies percent-formatting to a
string with no conversion specifier (the source has a dollar-s typo), so a
TypeError is raised and no response is sent.  A known client is destroyed
(disconnecting it first when connected) and removed from the table. -/
def handle_client_destroy (st : AgentState) (req : Request) : HandlerResult :=
  match alGet st.clients req.name with
  | none => (st, none)
  | some client =>
    let dr := Client.destroy client st.reactor
    ({ st with clients := alDel st.clients req.name, reactor := dr.2 },
     some { name := req.name, success := true, reason := "" })

/-- handle_client_connect (src lines 479-492): no port (or host) validation
of any kind is performed.  An unknown name hits the dollar-s formatting
typo, raising before a response is built.  A known client gets
client.connect(host, port) called directly: host and port are recorded on
the client object, and when the port is missing or out of range the
OS-level connect raises out of the handler, so the mutation survives and
no response is sent; on a successful connect a success response is sent. -/
def handle_client_connect (st : AgentState) (req : Request) : HandlerResult :=
  match alGet st.clients req.name with
  | none => (st, none)
  | some client =>
    let cr := Client.connect client st.reactor req.host req.port
    let st1 := { st with clients := alSet st.clients req.name cr.1,
                         reactor := cr.2.1 }
    if cr.2.2 then
      (st1, none)
    else
      (st1, some { name := req.name, success := true, reason := "" })

/-- handle_client_is_connected_request (src lines 494-509). -/
def handle_client_is_connected_request (st : AgentState) (req : Request) :
    HandlerResult :=
  match alGet st.clients req.name with
  | none => (st, some { name := req.name, success := false,
                        reason := "No such client " ++ fmtName req.name,
                        connected := false })
  | some client =>
    (st, some { name := req.name, success := true, reason := "",
                connected := client.is_connected })

/-- handle_server_create (src lines 511-532). -/
def handle_server_create (st : AgentState) (req : Request) : HandlerResult :=
  let name := req.name
  if alMem st.servers name then
    (st, some { name := name, success := false,
                reason := "Server \x27" ++ fmtName name ++ "\x27 already exists" })
  else
    ({ st with servers := alSet st.servers name {} },
     some { name := name, success := true, reason := "" })

/-- handle_server_destroy (src lines 534-548): an unknown name hits the
dollar-s formatting typo (TypeError, no response).  A known server is
destroyed; when Server.destroy raises (it always does on a listening
server, see Server.destroy) the partial mutations survive, the server
stays in its table and no response is sent; otherwise the server is
removed from the servers table and a success response is sent.  The
server_sessions table is never touched. -/
def handle_server_destroy (st : AgentState) (req : Request) : HandlerResult :=
  match alGet st.servers req.name with
  | none => (st, none)
  | some server =>
    let dr := Server.destroy server st.sessions st.reactor
    if dr.2 then
      ({ st with servers := alSet st.servers req.name dr.1.1,
                 sessions := dr.1.2.1, reactor := dr.1.2.2 }, none)
    else
      ({ st with servers := alDel st.servers req.name,
                 sessions := dr.1.2.1, reactor := dr.1.2.2 },
       some { name := req.name, success := true, reason := "" })

/-- handle_server_listen (src lines 550-570): subscript access to the name
field raises KeyError when it is absent (no response); an unknown server
is refused; then the port is validated (present, within [0, 65535]) BEFORE
any mutation; a valid request makes the server listen on a new socket. -/
def handle_server_listen (st : AgentState) (req : Request) : HandlerResult :=
  match req.name with
  | none => (st, none)
  | some n =>
    match alGet st.servers (some n) with
    | none => (st, some { name := some n, success := false,
                          reason := "No such server \x27" ++ n ++ "\x27" })
    | some server =>
      if portBad req.port then
        (st, some { name := some n, success := false,
                    reason := "Bad or missing port" })
      else
        let lr := Server.listen server st.reactor st.next_id
        ({ st with servers := alSet st.servers (some n) lr.1,
                   reactor := lr.2, next_id := st.next_id + 1 },
         some { name := some n, success := true, reason := "" })

/-- handle_server_unlisten (src lines 572-592): same shape as
handle_server_listen; after the port check, unlistening a server that is
not listening raises (no response), otherwise the listening socket is torn
down. -/
def handle_server_unlisten (st : AgentState) (req : Request) : HandlerResult :=
  match req.name with
  | none => (st, none)
  | some n =>
    match alGet st.servers (some n) with
    | none => (st, some { name := some n, success := false,
                          reason := "No such server \x27" ++ n ++ "\x27" })
    | some server =>
      if portBad req.port then
        (st, some { name := some n, success := false,
                    reason := "Bad or missing port" })
      else
        match Server.unlisten server st.reactor with
        | none => (st, none)
        | some (srv1, r1) =>
          ({ st with servers := alSet st.servers (some n) srv1, reactor := r1 },
           some { name := some n, success := true, reason := "" })

/-- handle_server_pending_accept_request (src lines 594-608). -/
def handle_server_pending_accept_request (st : AgentState) (req : Request) :
    HandlerResult :=
  match req.name with
  | none => (st, none)
  | some n =>
    match alGet st.servers (some n) with
    | none => (st, some { name := some n, success := false,
                          reason := "No such server \x27" ++ n ++ "\x27",
                          count := 0 })
    | some server =>
      (st, some { name := some n, success := true, reason := "",
                  count := server.pending_client_count })

/-- handle_server_accept (src lines 610-624): an unknown server is refused
with an empty session_name in the response; otherwise accept_client_session
is called and its result (None when no session is pending) is stored in
the server_sessions table under the REQUESTED session_name, and the
success response echoes that requested session_name unconditionally. -/
def handle_server_accept (st : AgentState) (req : Request) : HandlerResult :=
  match req.name with
  | none => (st, none)
  | some n =>
    match alGet st.servers (some n) with
    | none => (st, some { name := some n, success := false,
                          reason := "No such server \x27" ++ n ++ "\x27",
                          session_name := some "" })
    | some server =>
      let session_name := req.session_name
      let ar := Server.accept_client_session server st.sessions session_name
      ({ st with servers := alSet st.servers (some n) ar.1,
                 sessions := ar.2.1,
                 server_sessions := alSet st.server_sessions session_name ar.2.2 },
       some { name := some n, success := true, reason := "",
              session_name := session_name })

/-- handle_server_is_connected_request (src lines 626-641): the table get
returns None both when the name is absent and when it is bound to None (a
Python dict stores None values), and both give the no-such-session failure;
otherwise the stored session object answers is_connected.  An id missing
from the heap cannot arise (every stored id is allocated) and is mapped to
the same failure branch. -/
def handle_server_is_connected_request (st : AgentState) (req : Request) :
    HandlerResult :=
  let name := req.name
  let sessRef : Option SessId :=
    match alGet st.server_sessions name with
    | none => none
    | some v => v
  match sessRef with
  | none => (st, some { name := name, success := false,
                        reason := "No such session " ++ fmtName name,
                        connected := false })
  | some sid =>
    match alGet st.sessions sid with
    | none => (st, some { name := name, success := false,
                          reason := "No such session " ++ fmtName name,
                          connected := false })
    | some sess =>
      (st, some { name := name, success := true, reason := "",
                  connected := sess.is_connected })

/-- handle_server_disconnect (src lines 643-656): same lookup as
handle_server_is_connected_request; a found session is disconnected (which
raises, sending no response, when its socket attribute is already None)
and a success response is sent. -/
def handle_server_disconnect (st : AgentState) (req : Request) :
    HandlerResult :=
  let name := req.name
  let sessRef : Option SessId :=
    match alGet st.server_sessions name with
    | none => none
    | some v => v
  match sessRef with
  | none => (st, some { name := name, success := false,
                        reason := "No such session " ++ fmtName name })
  | some sid =>
    match alGet st.sessions sid with
    | none => (st, none)
    | some sess =>
      match ServerSession.disconnect sess st.reactor with
      | none => (st, none)
      | some (s1, r1) =>
        ({ st with sessions := alSet st.sessions sid s1, reactor := r1 },
         some { name := name, success := true, reason := "" })

/-! Helper: substring test on strings, used to state that a reason string
contains a given fragment. -/

/-- sub occurs contiguously inside s. -/
def strContains (s sub : String) : Bool :=
  (List.range (s.data.length + 1)).any fun i => sub.data.isPrefixOf (s.data.drop i)

theorem strContains_of_data_append (s sub : String) (u : List Char)
    (h : s.data = u ++ sub.data) : strContains s sub = true := by
  unfold strContains
  rw [List.any_eq_true]
  refine ⟨u.length, ?_, ?_⟩
  · rw [List.mem_range, h, List.length_append]
    omega
  · rw [h, List.drop_left]
    simp [ List.isPrefixOf_iff_prefix]

theorem osPortOk_false_of_portBad (p : Option Int) (h : portBad p = true) :
    osPortOk p = false := by
  cases p with
  | none => rfl
  | some v =>
    have hv : v < 0 ∨ 65535 < v := of_decide_eq_true (by simpa [portBad] using h)
    simp only [osPortOk]
    apply decide_eq_false
    omega

/-! Claim C4 and the corrected behaviour of server_accept on an empty
pending queue. -/

/-- A state holding one idle server named S and nothing else. -/
def c4State : AgentState := { servers := [(some "S", {})] }

/-- Claim C4, counterexample: accepting on an existing server with an
empty pending queue answers success with the REQUESTED session_name
echoed back, not with an empty session_name as the claim states. -/
theorem C4_counterexample :
    (handle_server_accept c4State
        { name := some "S", session_name := some "sess1" }).2 =
      some { name := some "S", success := true, reason := "",
             session_name := some "sess1" } ∧
    (some "sess1" : Option String) ≠ some "" := by
  exact ⟨rfl, by decide⟩

/-- Claim C4 (amended): server_accept on an existing server whose pending
queue is empty is not an error: the response has success true and its
session_name field echoes the requested session_name (which the handler
also binds to an absent session in the server_sessions table). -/
theorem C4_accept_empty_is_success_echoing_name (st : AgentState) (n : String)
    (srv : Server) (sn : Option String)
    (hs : alGet st.servers (some n) = some srv)
    (hp : srv.pending_sessions = []) :
    (handle_server_accept st { name := some n, session_name := sn }).2 =
      some { name := some n, success := true, reason := "",
             session_name := sn } := by
  have hp2 := hp
  simp only [handle_server_accept, hs]

/-- Witness for the amended C4 at a concrete state. -/
theorem C4_accept_empty_witness :
    (alGet c4State.servers (some "S") = some {} ∧
     Server.pending_sessions {} = []) ∧
    (handle_server_accept c4State
        { name := some "S", session_name := some "w" }).2 =
      some { name := some "S", success := true, reason := "",
             session_name := some "w" } :=
  ⟨⟨rfl, rfl⟩, C4_accept_empty_is_success_echoing_name c4State "S" {} (some "w")
      rfl rfl⟩

/-- Claim C9: accepting on an existing server with zero pending sessions
still mutates the server_sessions table, binding the requested name to the
absent session None; the response echoes the requested session_name; and a
subsequent server_is_connected_request for that name takes the
no-such-session failure branch (dict.get cannot tell a None value from an
absent key). -/
theorem C9_accept_empty_binds_none (st : AgentState) (n sn : String)
    (srv : Server)
    (hs : alGet st.servers (some n) = some srv)
    (hp : srv.pending_sessions = []) :
    (handle_server_accept st
        { name := some n, session_name := some sn }).1.server_sessions
      = alSet st.server_sessions (some sn) none ∧
    (handle_server_accept st { name := some n, session_name := some sn }).2 =
      some { name := some n, success := true, reason := "",
             session_name := some sn } ∧
    (handle_server_is_connected_request
        (handle_server_accept st { name := some n, session_name := some sn }).1
        { name := some sn }).2 =
      some { name := some sn, success := false,
             reason := "No such session " ++ sn, connected := false } := by
  have hstep : (handle_server_accept st
      { name := some n, session_name := some sn }).1.server_sessions
      = alSet st.server_sessions (some sn) none := by
    simp only [handle_server_accept, hs]
    simp [Server.accept_client_session, Server.pending_client_count, hp]
  refine ⟨hstep, ?_, ?_⟩
  · simp only [handle_server_accept, hs]
  · simp only [handle_server_is_connected_request, hstep, alGet_alSet_self]
    simp [fmtName]

/-- Witness for C9 at a concrete state. -/
theorem C9_accept_empty_witness :
    (alGet c4State.servers (some "S") = some {} ∧
     Server.pending_sessions {} = []) ∧
    ((handle_server_accept c4State
        { name := some "S", session_name := some "u" }).1.server_sessions
      = alSet c4State.server_sessions (some "u") none ∧
    (handle_server_accept c4State
        { name := some "S", session_name := some "u" }).2 =
      some { name := some "S", success := true, reason := "",
             session_name := some "u" } ∧
    (handle_server_is_connected_request
        (handle_server_accept c4State
          { name := some "S", session_name := some "u" }).1
        { name := some "u" }).2 =
      some { name := some "u", success := false,
             reason := "No such session " ++ "u", connected := false }) :=
  ⟨⟨rfl, rfl⟩, C9_accept_empty_binds_none c4State "S" "u" {} rfl rfl⟩

/-! Claim C10: server_destroy and the server_sessions table. -/

/-- A state with one non-listening server S owning one accepted, connected
session named x (heap id 0, socket 7), which the dispatcher table also
references. -/
def c10State : AgentState :=
  { servers := [(some "S", { accepted_sessions := [(some "x", 0)] })],
    server_sessions := [(some "x", some 0)],
    sessions := [(0, { socket := some 7, name := some "x" })],
    reactor := [7],
    next_id := 1 }

/-- Claim C10: handle_server_destroy never touches the server_sessions
table (on any state and request, along every branch), so a previously
accepted session name still resolves afterwards: in the concrete scenario,
destroying server S destroys its accepted session x, yet a subsequent
server_is_connected_request for x still finds the session (success true)
and reports it disconnected, rather than failing with no-such-session. -/
theorem C10_server_destroy_leaves_session_table :
    (∀ (st : AgentState) (req : Request),
        (handle_server_destroy st req).1.server_sessions = st.server_sessions) ∧
    ((handle_server_is_connected_request
        (handle_server_destroy c10State { name := some "S" }).1
        { name := some "x" }).2 =
      some { name := some "x", success := true, reason := "",
             connected := false }) := by
  constructor
  · intro st req
    unfold handle_server_destroy
    cases h : alGet st.servers req.name with
    | none => rfl
    | some server =>
      by_cases hb : (Server.destroy server st.sessions st.reactor).2 = true <;>
        simp [hb]
  · rfl

/-! Claim C7: client name uniqueness under create, duplicate create,
destroy, create. -/

theorem create_of_mem (st : AgentState) (A : Option String)
    (h : alMem st.clients A = true) :
    handle_client_create st { name := A } =
      (st, some { name := A, success := false,
                  reason := "Client " ++ fmtName A ++ " already exists" }) := by
  unfold handle_client_create
  rw [if_pos h]

theorem create_of_not_mem (st : AgentState) (A : Option String)
    (h : alMem st.clients A = false) :
    handle_client_create st { name := A } =
      ({ st with clients := alSet st.clients A (Client.init A st.next_id),
                 next_id := st.next_id + 1 },
       some { name := A, success := true, reason := "" }) := by
  unfold handle_client_create
  rw [if_neg (by simp [h])]

theorem create_mem (st : AgentState) (A : Option String) :
    alMem (handle_client_create st { name := A }).1.clients A = true := by
  cases hm : alMem st.clients A with
  | true => rw [create_of_mem st A hm]; exact hm
  | false =>
    rw [create_of_not_mem st A hm]
    simp [alMem, alGet_alSet_self]

theorem create_nodup (st : AgentState) (A : Option String)
    (h : (st.clients.map Prod.fst).Nodup) :
    ((handle_client_create st { name := A }).1.clients.map Prod.fst).Nodup := by
  cases hm : alMem st.clients A with
  | true => rw [create_of_mem st A hm]; exact h
  | false =>
    rw [create_of_not_mem st A hm]
    exact nodup_keys_alSet _ _ _ h

/-- Claim C7: a client_create for a name already present answers success
false with a reason containing already exists and leaves the whole state
(in particular the client table) unchanged; after client_destroy of that
name, client_create succeeds again. -/
theorem C7_client_name_uniqueness (st : AgentState) (A : Option String)
    (hnd : (st.clients.map Prod.fst).Nodup) :
    (handle_client_create (handle_client_create st { name := A }).1
        { name := A }).1
      = (handle_client_create st { name := A }).1 ∧
    (handle_client_create (handle_client_create st { name := A }).1
        { name := A }).2
      = some { name := A, success := false,
               reason := "Client " ++ fmtName A ++ " already exists" } ∧
    strContains ("Client " ++ fmtName A ++ " already exists")
        "already exists" = true ∧
    (handle_client_create
        (handle_client_destroy
          (handle_client_create (handle_client_create st { name := A }).1
            { name := A }).1
          { name := A }).1
        { name := A }).2
      = some { name := A, success := true, reason := "" } := by
  have hmem1 := create_mem st A
  have hnd1 := create_nodup st A hnd
  have hsecond := create_of_mem (handle_client_create st { name := A }).1 A hmem1
  have hcontains : strContains ("Client " ++ fmtName A ++ " already exists")
      "already exists" = true := by
    apply strContains_of_data_append _ _ ("Client " ++ fmtName A ++ " ").data
    have hx : (" already exists" : String).data
        = (" " : String).data ++ ("already exists" : String).data := rfl
    rw [String.data_append, String.data_append, String.data_append,
      String.data_append, hx]
    simp [List.append_assoc]
  obtain ⟨c, hc⟩ : ∃ c, alGet (handle_client_create st { name := A }).1.clients A
      = some c := by
    unfold alMem at hmem1
    cases hg : alGet (handle_client_create st { name := A }).1.clients A with
    | none => rw [hg] at hmem1; simp at hmem1
    | some c => exact ⟨c, rfl⟩
  have hdes : (handle_client_destroy (handle_client_create st { name := A }).1
      { name := A }).1
      = { (handle_client_create st { name := A }).1 with
          clients := alDel (handle_client_create st { name := A }).1.clients A,
          reactor :=
            (Client.destroy c (handle_client_create st { name := A }).1.reactor).2 } := by
    unfold handle_client_destroy
    simp [hc]
  have hgone : alGet (alDel (handle_client_create st { name := A }).1.clients A) A
      = none := alGet_alDel_self _ _ hnd1
  refine ⟨by rw [hsecond], by rw [hsecond], hcontains, ?_⟩
  rw [hsecond, hdes]
  rw [create_of_not_mem _ A (by simp [alMem, hgone])]

/-- Witness for C7 starting from the empty agent state. -/
theorem C7_client_name_uniqueness_witness :
    ((({} : AgentState).clients.map Prod.fst).Nodup) ∧
    ((handle_client_create
        (handle_client_create ({} : AgentState) { name := some "A" }).1
        { name := some "A" }).1
      = (handle_client_create ({} : AgentState) { name := some "A" }).1 ∧
    (handle_client_create
        (handle_client_create ({} : AgentState) { name := some "A" }).1
        { name := some "A" }).2
      = some { name := some "A", success := false,
               reason := "Client " ++ fmtName (some "A") ++ " already exists" } ∧
    strContains ("Client " ++ fmtName (some "A") ++ " already exists")
        "already exists" = true ∧
    (handle_client_create
        (handle_client_destroy
          (handle_client_create
            (handle_client_create ({} : AgentState) { name := some "A" }).1
            { name := some "A" }).1
          { name := some "A" }).1
        { name := some "A" }).2
      = some { name := some "A", success := true, reason := "" }) :=
  ⟨by decide, C7_client_name_uniqueness {} (some "A") (by decide)⟩

/-! Claim C5: zero-length reads on endpoint sockets. -/

/-- Claim C5, counterexample: a zero-length read on a connected
ServerSession (socket 7, registered with the reactor) flips the session to
disconnected but LEAVES the reactor registration in place, contrary to the
claim that every endpoint entity is deregistered. -/
theorem C5_counterexample :
    (ServerSession.readable { socket := some 7 } [7] [] []).1.is_connected
        = false ∧
    (ServerSession.readable { socket := some 7 } [7] [] []).2 = [7] :=
  ⟨rfl, rfl⟩

/-- Claim C5 (amended): a zero-length read always transitions the entity to
disconnected and neither path emits any response; a Client additionally
deregisters its socket from the reactor (and keeps the socket attribute),
but a ServerSession leaves both its reactor registration and its socket
attribute untouched. -/
theorem C5_zero_read_transitions (c : Client) (rc : Reactor) (sid : SockId)
    (s : ServerSession) (rs : Reactor)
    (hc : c.socket = some sid) :
    ((Client.readable c rc [] []).1.is_connected = false ∧
     (Client.readable c rc [] []).2 = Reactor.remove rc sid ∧
     sid ∉ (Client.readable c rc [] []).2 ∧
     (Client.readable c rc [] []).1.socket = some sid) ∧
    ((ServerSession.readable s rs [] []).1.is_connected = false ∧
     (ServerSession.readable s rs [] []).2 = rs ∧
     (ServerSession.readable s rs [] []).1.socket = s.socket) := by
  refine ⟨⟨?_, ?_, ?_, ?_⟩, ?_, ?_, ?_⟩
  · simp [Client.readable, Client.disconnect]
  · simp [Client.readable, Client.disconnect, hc]
  · simp [Client.readable, Client.disconnect, hc, Reactor.remove,
      List.mem_filter]
  · simp [Client.readable, Client.disconnect, hc]
  · simp [ServerSession.readable]
  · simp [ServerSession.readable]
  · simp [ServerSession.readable]

/-- Witness for the amended C5 at concrete entities. -/
theorem C5_zero_read_witness :
    ((Client.init (some "A") 3).socket = some 3) ∧
    (((Client.readable (Client.init (some "A") 3) [3] [] []).1.is_connected
          = false ∧
      (Client.readable (Client.init (some "A") 3) [3] [] []).2
          = Reactor.remove [3] 3 ∧
      3 ∉ (Client.readable (Client.init (some "A") 3) [3] [] []).2 ∧
      (Client.readable (Client.init (some "A") 3) [3] [] []).1.socket
          = some 3) ∧
     ((ServerSession.readable { socket := some 9 } [9] [] []).1.is_connected
          = false ∧
      (ServerSession.readable { socket := some 9 } [9] [] []).2 = [9] ∧
      (ServerSession.readable { socket := some 9 } [9] [] []).1.socket
          = ({ socket := some 9 } : ServerSession).socket)) :=
  ⟨rfl, C5_zero_read_transitions (Client.init (some "A") 3) [3] 3
      { socket := some 9 } [9] rfl⟩

/-! Claim C6: port validation across the port-carrying handlers. -/

/-- A state holding one fresh client named A. -/
def c6State : AgentState :=
  { clients := [(some "A", Client.init (some "A") 0)], next_id := 1 }

/-- Claim C6, counterexample: a client_connect with an out-of-range port
(70000) on an existing client MUTATES the client table (host and port are
recorded on the client before the OS-level connect raises) and sends no
response at all, contrary to the claim that every port-carrying
handler validates the port before any mutation and sends a failure
response. -/
theorem C6_counterexample :
    (handle_client_connect c6State
        { name := some "A", host := some "h", port := some 70000 }).1.clients
        ≠ c6State.clients ∧
    (handle_client_connect c6State
        { name := some "A", host := some "h", port := some 70000 }).2
        = none := by
  refine ⟨by decide, ?_⟩
  rfl

/-- Claim C6 (amended): server_listen and server_unlisten do validate a
missing or out-of-range port before any mutation and send the failure
reason Bad or missing port; client_connect performs no port validation at
all: on an existing client it records host and port on the client object
and, the OS-level connect raising, sends no response while the mutation
survives. -/
theorem C6_port_validation_not_uniform (st : AgentState) (n : String)
    (srv : Server) (p : Option Int) (A : Option String) (c : Client)
    (hst : Option String)
    (hs : alGet st.servers (some n) = some srv)
    (hp : portBad p = true)
    (hcl : alGet st.clients A = some c) :
    handle_server_listen st { name := some n, port := p } =
      (st, some { name := some n, success := false,
                  reason := "Bad or missing port" }) ∧
    handle_server_unlisten st { name := some n, port := p } =
      (st, some { name := some n, success := false,
                  reason := "Bad or missing port" }) ∧
    handle_client_connect st { name := A, host := hst, port := p } =
      ({ st with clients :=
            alSet st.clients A { c with host := hst, port := p } }, none) := by
  have hos := osPortOk_false_of_portBad p hp
  refine ⟨?_, ?_, ?_⟩
  · simp only [handle_server_listen, hs]
    rw [if_pos hp]
  · simp only [handle_server_unlisten, hs]
    rw [if_pos hp]
  · simp only [handle_client_connect, hcl, Client.connect, hos]
    simp

/-- Witness for the amended C6 at a concrete state with one server and one
client and the out-of-range port 70000. -/
def c6AmendState : AgentState :=
  { clients := [(some "A", Client.init (some "A") 0)],
    servers := [(some "S", {})], next_id := 1 }

theorem C6_port_validation_witness :
    (alGet c6AmendState.servers (some "S") = some {} ∧
     portBad (some 70000) = true ∧
     alGet c6AmendState.clients (some "A") = some (Client.init (some "A") 0)) ∧
    (handle_server_listen c6AmendState { name := some "S", port := some 70000 } =
      (c6AmendState, some { name := some "S", success := false,
                            reason := "Bad or missing port" }) ∧
    handle_server_unlisten c6AmendState { name := some "S", port := some 70000 } =
      (c6AmendState, some { name := some "S", success := false,
                            reason := "Bad or missing port" }) ∧
    handle_client_connect c6AmendState
        { name := some "A", host := some "h", port := some 70000 } =
      ({ c6AmendState with
          clients :=
            alSet c6AmendState.clients (some "A")
              { (Client.init (some "A") 0) with
                  host := some "h",
                  port := some 70000 } }, none)) :=
  ⟨⟨rfl, by decide, rfl⟩,
   C6_port_validation_not_uniform c6AmendState "S" {} (some 70000) (some "A")
      (Client.init (some "A") 0) (some "h") rfl (by decide) rfl⟩

/-! Claim C8: socket ownership across the Client lifecycle. -/

/-- Claim C8, counterexample: a freshly created, never connected client
already holds its socket (the constructor creates it eagerly), contrary to
the claim that the socket is present exactly while connected. -/
theorem C8_counterexample :
    (Client.init (some "A") 0).socket = some 0 ∧
    (Client.init (some "A") 0).is_connected = false :=
  ⟨rfl, rfl⟩

/-- Claim C8 (amended): the socket is created at construction and its
handle is retained for the whole life of the client, also while
disconnected; a successful connect marks the client connected and
registers the EXISTING socket with the reactor instead of creating a new
one, and disconnect keeps the handle too. -/
theorem C8_socket_eager_and_reused (name : Option String) (sid : SockId)
    (r : Reactor) (hst : Option String) (p : Option Int)
    (hp : osPortOk p = true) :
    ((Client.init name sid).socket = some sid ∧
     (Client.init name sid).is_connected = false) ∧
    ((Client.connect (Client.init name sid) r hst p).1.socket = some sid ∧
     (Client.connect (Client.init name sid) r hst p).1.is_connected = true ∧
     (Client.connect (Client.init name sid) r hst p).2.1 = Reactor.add r sid ∧
     (Client.connect (Client.init name sid) r hst p).2.2 = false) ∧
    ((Client.disconnect (Client.connect (Client.init name sid) r hst p).1
        (Client.connect (Client.init name sid) r hst p).2.1).1.socket
      = some sid) := by
  simp [Client.init, Client.connect, Client.disconnect, hp]

/-- Witness for the amended C8 with the in-range port 80. -/
theorem C8_socket_witness :
    (osPortOk (some 80) = true) ∧
    (((Client.init (some "A") 0).socket = some 0 ∧
      (Client.init (some "A") 0).is_connected = false) ∧
     ((Client.connect (Client.init (some "A") 0) [] (some "h")
          (some 80)).1.socket = some 0 ∧
      (Client.connect (Client.init (some "A") 0) [] (some "h")
          (some 80)).1.is_connected = true ∧
      (Client.connect (Client.init (some "A") 0) [] (some "h")
          (some 80)).2.1 = Reactor.add [] 0 ∧
      (Client.connect (Client.init (some "A") 0) [] (some "h")
          (some 80)).2.2 = false) ∧
     ((Client.disconnect
          (Client.connect (Client.init (some "A") 0) [] (some "h")
            (some 80)).1
          (Client.connect (Client.init (some "A") 0) [] (some "h")
            (some 80)).2.1).1.socket = some 0)) :=
  ⟨by decide, C8_socket_eager_and_reused (some "A") 0 [] (some "h") (some 80)
      (by decide)⟩

end Fixtool
